import Mathlib

/-!
Verification development for a small crypto chat bot consisting of two
modules: parser.py (market-data retrieval and chart rendering against the
CoinGecko HTTP API) and bot.py (a Telegram dispatcher composing them).

The embedding models JSON values, the relevant fragment of Python runtime
semantics (membership tests, subscripting, iteration, string methods,
f-string formatting, exceptions), and each source function as a Lean
function over an explicit model of the HTTP outcome of its single upstream
request. JSON numbers are modelled as integers; fallible Python code is
modelled with Except over an exception type.
-/

set_option autoImplicit false

namespace CryptoBot

/-- JSON values as delivered by response.json(). Numbers are modelled as
integers (the claims under study only involve integral prices). Objects
are association lists in document order. -/
inductive Json where
  | null
  | bool (b : Bool)
  | num (n : Int)
  | str (s : String)
  | arr (items : List Json)
  | obj (fields : List (String × Json))

/-- The Python exceptions the modelled code can raise. JSONDecodeError is
not listed separately: in the requests library it subclasses
RequestException, so response.json() failures are absorbed by the
`except requests.exceptions.RequestException` clauses of the source. -/
inductive PyExc where
  | requestException
  | typeError
  | keyError (key : String)
  | attributeError
  | indexError
  | valueError
deriving DecidableEq, Repr

/-- Outcome of one HTTP request as seen by the calling function:
either requests.get / raise_for_status raised a RequestException
(transportError), or response.json() failed to decode (malformedBody,
also a RequestException in requests), or a decoded JSON body. -/
inductive HttpOutcome where
  | transportError
  | malformedBody
  | body (data : Json)

/-- First binding of a key in a JSON object (objects produced by a JSON
decoder have unique keys, so first = only). -/
def jsonLookup (fields : List (String × Json)) (k : String) : Option Json :=
  match fields with
  | [] => none
  | (k2, v) :: rest => if k2 = k then some v else jsonLookup rest k

/-- Whether a list of characters starts with another. -/
def listPrefixOf : List Char → List Char → Bool
  | [], _ => true
  | _ :: _, [] => false
  | a :: as, b :: bs => a = b && listPrefixOf as bs

/-- Whether needle occurs as a contiguous run inside hay. -/
def listInfixOf (needle hay : List Char) : Bool :=
  match hay with
  | [] => listPrefixOf needle []
  | _ :: t => listPrefixOf needle hay || listInfixOf needle t

/-- Python substring test sub in s. -/
def strContains (hay needle : String) : Bool :=
  listInfixOf needle.data hay.data

/-- Whether a Python == comparison of a string key against a JSON value
holds (used for membership in lists). -/
def eqStrJson (k : String) : Json → Bool
  | .str s => s = k
  | _ => false

/-- The Python membership test k in data for a string k: key membership
for dicts, element equality for lists, substring test for strings, and a
TypeError for the remaining non-container values. -/
def pyContains (data : Json) (k : String) : Except PyExc Bool :=
  match data with
  | .obj fields => .ok (jsonLookup fields k).isSome
  | .arr items => .ok (items.any (eqStrJson k))
  | .str s => .ok (strContains s k)
  | _ => .error .typeError

/-- The Python subscript data[k] for a string k: dict lookup raising
KeyError when absent; lists and strings take integer indices only, so a
string subscript raises TypeError, as do the scalar values. -/
def pySubscript (data : Json) (k : String) : Except PyExc Json :=
  match data with
  | .obj fields =>
    match jsonLookup fields k with
    | some v => .ok v
    | none => .error (.keyError k)
  | _ => .error .typeError

/-- Python iteration over a JSON value: list elements, dict keys, string
characters; scalars raise TypeError. -/
def pyIter (data : Json) : Except PyExc (List Json) :=
  match data with
  | .arr items => .ok items
  | .obj fields => .ok (fields.map (fun p => Json.str p.1))
  | .str s => .ok (s.data.map (fun c => Json.str c.toString))
  | _ => .error .typeError

/-- Python s.lower() (ASCII case mapping, which covers all strings the
modelled code lowercases). -/
def strLower (s : String) : String :=
  String.mk (s.data.map Char.toLower)

/-- Python s.upper() (ASCII case mapping). -/
def strUpper (s : String) : String :=
  String.mk (s.data.map Char.toUpper)

/-- Python v.upper(): defined on strings, AttributeError otherwise. -/
def pyUpper : Json → Except PyExc String
  | .str s => .ok (strUpper s)
  | _ => .error .attributeError

mutual

/-- Python str() of a value, as used by f-string interpolation:
None / True / False keywords, decimal rendering of numbers, strings
verbatim, and repr-style rendering of containers. -/
def pyStr : Json → String
  | .null => "None"
  | .bool true => "True"
  | .bool false => "False"
  | .num n => toString n
  | .str s => s
  | .arr items => "[" ++ pyReprItems items ++ "]"
  | .obj fields => "\x7b" ++ pyReprFields fields ++ "\x7d"

/-- Python repr() of a value (strings quoted), used for container members. -/
def pyReprOne : Json → String
  | .null => "None"
  | .bool true => "True"
  | .bool false => "False"
  | .num n => toString n
  | .str s => "\x27" ++ s ++ "\x27"
  | .arr items => "[" ++ pyReprItems items ++ "]"
  | .obj fields => "\x7b" ++ pyReprFields fields ++ "\x7d"

/-- Comma-separated repr of list members. -/
def pyReprItems : List Json → String
  | [] => ""
  | [x] => pyReprOne x
  | x :: y :: rest => pyReprOne x ++ ", " ++ pyReprItems (y :: rest)

/-- Comma-separated repr of dict entries. -/
def pyReprFields : List (String × Json) → String
  | [] => ""
  | [(k, v)] => "\x27" ++ k ++ "\x27: " ++ pyReprOne v
  | (k, v) :: e :: rest =>
      "\x27" ++ k ++ "\x27: " ++ pyReprOne v ++ ", " ++ pyReprFields (e :: rest)

end

/-- Python s.title(): the first character of every run of letters is
uppercased, later letters of a run are lowercased. -/
def pyTitleAux : List Char → Bool → List Char
  | [], _ => []
  | c :: cs, prevAlpha =>
    if c.isAlpha then
      (if prevAlpha then c.toLower else c.toUpper) :: pyTitleAux cs true
    else
      c :: pyTitleAux cs false

/-- Python s.title() on a string. -/
def pyTitle (s : String) : String :=
  String.mk (pyTitleAux s.data false)

/-! ## parser.py: MarketDataClient and ChartRenderer -/

/-- Sentinel returned by get_crypto_price on a RequestException. -/
def serviceUnavailableMsg : String :=
  "Service temporarily unavailable - please try again later"

/-- Sentinel returned by get_crypto_price when the identifier key or the
nested usd field is missing from the response. -/
def priceUnavailableMsg : String :=
  "Price data not available at this time"

/-- Sentinel returned by get_top_5_crypto_prices on a RequestException. -/
def topUnavailableMsg : String :=
  "Couldn\x27t retrieve top cryptocurrencies - please try again later"

/-- Body of the try block of get_crypto_price once the JSON body has been
decoded: if crypto_name in data and usd in data[crypto_name], format the
price, otherwise return the price-unavailable sentinel. The short-circuit
evaluation order of the Python condition is preserved, so a TypeError
raised by an inner membership test or subscript propagates. -/
def runPriceBody (crypto_name : String) (data : Json) : Except PyExc String :=
  match pyContains data crypto_name with
  | .error e => .error e
  | .ok false => .ok priceUnavailableMsg
  | .ok true =>
    match pySubscript data crypto_name with
    | .error e => .error e
    | .ok v =>
      match pyContains v "usd" with
      | .error e => .error e
      | .ok false => .ok priceUnavailableMsg
      | .ok true =>
        match pySubscript v "usd" with
        | .error e => .error e
        | .ok u => .ok ("$" ++ pyStr u)

/-- get_crypto_price of parser.py, as a function of the outcome of its
single GET to the simple/price endpoint. The except clause catches only
RequestException, so transport errors and malformed bodies become the
service-unavailable sentinel while any other exception escapes. -/
def get_crypto_price (crypto_name : String) (resp : HttpOutcome) :
    Except PyExc String :=
  match resp with
  | .transportError => .ok serviceUnavailableMsg
  | .malformedBody => .ok serviceUnavailableMsg
  | .body data =>
    match runPriceBody crypto_name data with
    | .ok s => .ok s
    | .error .requestException => .ok serviceUnavailableMsg
    | .error e => .error e

/-- One iteration of the loop of get_top_5_crypto_prices: the f-string
evaluates crypto[name], crypto[symbol].upper() and crypto[current_price]
in that order. -/
def renderSnapshot (crypto : Json) : Except PyExc String :=
  match pySubscript crypto "name" with
  | .error e => .error e
  | .ok nameJ =>
    match pySubscript crypto "symbol" with
    | .error e => .error e
    | .ok symJ =>
      match pyUpper symJ with
      | .error e => .error e
      | .ok symU =>
        match pySubscript crypto "current_price" with
        | .error e => .error e
        | .ok priceJ =>
          .ok (pyStr nameJ ++ " (" ++ symU ++ "): $" ++ pyStr priceJ)

/-- The accumulating loop of get_top_5_crypto_prices; the first exception
aborts the loop. -/
def renderSnapshots : List Json → Except PyExc (List String)
  | [] => .ok []
  | c :: rest =>
    match renderSnapshot c with
    | .error e => .error e
    | .ok line =>
      match renderSnapshots rest with
      | .error e => .error e
      | .ok lines => .ok (line :: lines)

/-- Body of the try block of get_top_5_crypto_prices after JSON decoding:
iterate the body and join the rendered lines with newlines. -/
def runTopPricesBody (data : Json) : Except PyExc String :=
  match pyIter data with
  | .error e => .error e
  | .ok items =>
    match renderSnapshots items with
    | .error e => .error e
    | .ok lines => .ok (String.intercalate "\n" lines)

/-- get_top_5_crypto_prices of parser.py, as a function of the outcome of
its GET to the coins/markets endpoint (requested with per_page=5). Only
RequestException is caught. -/
def get_top_5_crypto_prices (resp : HttpOutcome) : Except PyExc String :=
  match resp with
  | .transportError => .ok topUnavailableMsg
  | .malformedBody => .ok topUnavailableMsg
  | .body data =>
    match runTopPricesBody data with
    | .ok s => .ok s
    | .error .requestException => .ok topUnavailableMsg
    | .error e => .error e

/-- The per_page parameter of the coins/markets request URL. -/
def marketsRequestPerPage : Nat := 5

/-- The list comprehension of get_top_5_crypto_list, collecting
crypto[id] for each element of the body. -/
def collectIds : List Json → Except PyExc (List Json)
  | [] => .ok []
  | c :: rest =>
    match pySubscript c "id" with
    | .error e => .error e
    | .ok v =>
      match collectIds rest with
      | .error e => .error e
      | .ok vs => .ok (v :: vs)

/-- get_top_5_crypto_list of parser.py: project the id field of each
entry of the markets response; a RequestException yields the empty list. -/
def get_top_5_crypto_list (resp : HttpOutcome) : Except PyExc (List Json) :=
  match resp with
  | .transportError => .ok []
  | .malformedBody => .ok []
  | .body data =>
    match (match pyIter data with
           | .error e => .error e
           | .ok items => collectIds items : Except PyExc (List Json)) with
    | .ok l => .ok l
    | .error .requestException => .ok []
    | .error e => .error e

/-- One (timestamp, price) sample of a price series, both integral in
this model (timestamps are epoch milliseconds in the upstream data). -/
structure PricePoint where
  timestamp : Int
  price : Int
deriving DecidableEq, Repr

/-- One row of the market_chart prices field as consumed by the pandas
DataFrame construction: a two-element [timestampMillis, price] array of
numbers. Anything else makes the DataFrame construction or the
to_datetime conversion fail. -/
def parsePricePair : Json → Option PricePoint
  | .arr [.num t, .num p] => some (PricePoint.mk t p)
  | _ => none

/-- Parse every row of the prices array, failing if any row is not a
well-formed pair. -/
def parseSeries : List Json → Option (List PricePoint)
  | [] => some []
  | r :: rest =>
    match parsePricePair r, parseSeries rest with
    | some p, some ps => some (p :: ps)
    | _, _ => none

/-- The DataFrame construction pd.DataFrame(data[prices], ...) together
with the to_datetime conversion: requires a list of well-formed rows,
raising (ValueError in the model) otherwise. -/
def pandasRows (pricesJ : Json) : Except PyExc (List PricePoint) :=
  match pricesJ with
  | .arr rows =>
    match parseSeries rows with
    | some pts => .ok pts
    | none => .error .valueError
  | _ => .error .valueError

/-- An in-memory byte buffer (io.BytesIO): its contents and its current
position. -/
structure ByteBuffer where
  data : List Nat
  pos : Nat
deriving DecidableEq, Repr

/-- The eight-byte signature that opens every PNG stream. -/
def pngSignature : List Nat := [137, 80, 78, 71, 13, 10, 26, 10]

/-- The chart produced by one render pass: the trend colour chosen for
the line, the title text, and the PNG buffer. -/
structure RenderedChart where
  lineColor : String
  titleText : String
  buf : ByteBuffer
deriving DecidableEq, Repr

/-- Modelled from the spec: the drawing backend (matplotlib) is not part
of this repository. Per the specification the render pass writes a
complete PNG encoding of the plotted series into an in-memory buffer
(hence the buffer opens with the PNG signature and is non-empty), and the
subsequent buf.seek(0) leaves the buffer positioned at its start. -/
def renderChart (crypto_id line_color : String) (pts : List PricePoint) :
    RenderedChart :=
  let written := pngSignature ++ pts.map (fun p => p.price.natAbs % 256)
  { lineColor := line_color
    titleText := pyTitle crypto_id ++ " Price (Last 24h)"
    buf := { data := written, pos := 0 } }

/-- Body of the try block of generate_price_chart after JSON decoding:
return None when the prices field is absent, build the DataFrame, read
the first and last price (IndexError on an empty frame), choose the line
colour by the comparison end_price >= start_price, and render. -/
def generate_price_chart_body (crypto_id : String) (data : Json) :
    Except PyExc (Option RenderedChart) :=
  match pyContains data "prices" with
  | .error e => .error e
  | .ok false => .ok none
  | .ok true =>
    match pySubscript data "prices" with
    | .error e => .error e
    | .ok pricesJ =>
      match pandasRows pricesJ with
      | .error e => .error e
      | .ok pts =>
        match pts with
        | [] => .error .indexError
        | p0 :: rest =>
          let start_price := p0.price
          let end_price := ((p0 :: rest).getLastD p0).price
          let line_color :=
            if end_price ≥ start_price then "#26a69a" else "#ef5350"
          .ok (some (renderChart crypto_id line_color (p0 :: rest)))

/-- generate_price_chart of parser.py, as a function of the outcome of
its GET to the market_chart endpoint. The first except clause absorbs
RequestException (transport errors and malformed bodies); the second,
a catch-all except Exception, absorbs everything else, so the function
never raises and returns None on any failure. -/
def generate_price_chart (crypto_id : String) (resp : HttpOutcome) :
    Option RenderedChart :=
  match resp with
  | .transportError => none
  | .malformedBody => none
  | .body data =>
    match generate_price_chart_body crypto_id data with
    | .ok r => r
    | .error _ => none

/-! ## bot.py: the Dispatcher -/

/-- The label-to-identifier mapping of crypto_handler: lowercase the
user-facing label, then map toncoin to the-open-network and leave every
other lowercased label unchanged. -/
def mapLabel (raw : String) : String :=
  let crypto_name := strLower raw
  if crypto_name = "toncoin" then "the-open-network" else crypto_name

/-- One outbound HTTP call issued by a handler, by endpoint. -/
inductive ApiCall where
  | simplePrice (id : String)
  | marketChart (id : String)
  | markets
deriving DecidableEq, Repr

/-- One message sent back to the user: a text reply or a photo reply. -/
inductive Reply where
  | text (s : String)
  | photo (chart : RenderedChart) (caption : String)
deriving DecidableEq, Repr

/-- The upstream environment a handler runs against: the outcome of a
simple/price request and of a market_chart request for each identifier. -/
structure Env where
  price : String → HttpOutcome
  chart : String → HttpOutcome

/-- The observable result of running a message handler: the HTTP calls it
issued, the replies it sent (in order), the intent slot of user_data
afterwards, and the exception escaping the handler, if any (replies
already sent before the exception remain sent). -/
structure HandlerResult where
  calls : List ApiCall
  replies : List Reply
  intentAfter : Option String
  exc : Option PyExc

/-- crypto_handler of bot.py, over the pending intent, the text of the
incoming message, and the upstream environment. An absent intent returns
at once; an empty-string intent is falsy in Python and also returns at
once without clearing the slot. Otherwise the label is mapped to an
identifier, the intent branch runs, and the intent slot is deleted. The
failure test of the price branch checks three lowercase substrings of the
returned string. -/
def crypto_handler (intent0 : Option String) (text : String) (env : Env) :
    HandlerResult :=
  match intent0 with
  | none => { calls := [], replies := [], intentAfter := none, exc := none }
  | some intent =>
    if intent = "" then
      { calls := [], replies := [], intentAfter := some intent, exc := none }
    else
      let crypto_id := mapLabel text
      if intent = "get_price" then
        let checking := Reply.text ("🔍 Checking current " ++ text ++ " price...")
        match get_crypto_price crypto_id (env.price crypto_id) with
        | .error e =>
          { calls := [.simplePrice crypto_id], replies := [checking]
            intentAfter := some intent, exc := some e }
        | .ok price_info =>
          let low := strLower price_info
          let failDetected := strContains low "error"
            || strContains low "could not find"
            || strContains low "not available"
          let reply :=
            if failDetected then
              Reply.text ("❌ Sorry, I couldn\x27t retrieve the " ++ text
                ++ " price at the moment. Please try again later.")
            else
              Reply.text ("💰 Current " ++ text ++ " price: " ++ price_info)
          { calls := [.simplePrice crypto_id], replies := [checking, reply]
            intentAfter := none, exc := none }
      else if intent = "get_chart" then
        let generating := Reply.text ("🎨 Generating 24h chart for " ++ text ++ "...")
        match generate_price_chart crypto_id (env.chart crypto_id) with
        | some chart =>
          { calls := [.marketChart crypto_id]
            replies := [generating,
              Reply.photo chart ("📈 24-hour price chart for " ++ text)]
            intentAfter := none, exc := none }
        | none =>
          { calls := [.marketChart crypto_id]
            replies := [generating,
              Reply.text ("❌ Sorry, I couldn\x27t generate the chart for " ++ text
                ++ " at the moment. Please try again later.")]
            intentAfter := none, exc := none }
      else
        { calls := [], replies := [], intentAfter := none, exc := none }

/-- The static fallback list of ask_for_crypto. -/
def fallbackCryptoList : List Json :=
  [.str "bitcoin", .str "ethereum", .str "binancecoin", .str "ripple", .str "cardano"]

/-- crypto.title() on one keyboard entry; entries that are not strings
raise AttributeError. -/
def titleLabel : Json → Except PyExc String
  | .str s => .ok (pyTitle s)
  | _ => .error .attributeError

/-- Title-case every keyboard entry. -/
def titleLabels : List Json → Except PyExc (List String)
  | [] => .ok []
  | c :: rest =>
    match titleLabel c with
    | .error e => .error e
    | .ok l =>
      match titleLabels rest with
      | .error e => .error e
      | .ok ls => .ok (l :: ls)

/-- The observable result of ask_for_crypto: the intent slot afterwards
(set before anything can fail), the one-button-per-row keyboard labels
sent, and any escaping exception. -/
structure AskResult where
  intentAfter : Option String
  keyboard : List (List String)
  exc : Option PyExc
deriving DecidableEq, Repr

/-- ask_for_crypto of bot.py: store the intent, fetch the live top-5
identifier list inside a try whose except Exception installs the static
fallback (note get_top_5_crypto_list returns an empty list, rather than
raising, on a transport failure), append the fixed Toncoin entry, and
build one keyboard row per title-cased entry. -/
def ask_for_crypto (intent : String) (marketsResp : HttpOutcome) : AskResult :=
  let crypto_list :=
    match get_top_5_crypto_list marketsResp with
    | .ok l => l
    | .error _ => fallbackCryptoList
  let full := crypto_list ++ [Json.str "Toncoin"]
  match titleLabels full with
  | .ok labels =>
    { intentAfter := some intent, keyboard := labels.map (fun l => [l]), exc := none }
  | .error e =>
    { intentAfter := some intent, keyboard := [], exc := some e }

/-- price_command of bot.py. -/
def price_command (marketsResp : HttpOutcome) : AskResult :=
  ask_for_crypto "get_price" marketsResp

/-- chart_command of bot.py. -/
def chart_command (marketsResp : HttpOutcome) : AskResult :=
  ask_for_crypto "get_chart" marketsResp

/-- top5 of bot.py: announce, call get_top_5_crypto_prices (which may
raise on odd-shaped bodies), and send the joined block. The intent slot
is not touched. -/
def top5 (intent0 : Option String) (marketsResp : HttpOutcome) : HandlerResult :=
  let fetching := Reply.text "Fetching the prices of the top 5 cryptocurrencies..."
  match get_top_5_crypto_prices marketsResp with
  | .error e =>
    { calls := [.markets], replies := [fetching]
      intentAfter := intent0, exc := some e }
  | .ok prices_info =>
    { calls := [.markets]
      replies := [fetching, Reply.text ("Top 5 cryptocurrencies:\n" ++ prices_info)]
      intentAfter := intent0, exc := none }

/-! ## Spec-side data model and test environments -/

/-- MarketSnapshot of the specification data model: display name, ticker
symbol and current price of one asset of the markets listing. -/
structure MarketSnapshot where
  name : String
  symbol : String
  current_price : Int
deriving DecidableEq, Repr

/-- Reading of one well-formed markets entry as a MarketSnapshot. -/
def snapshotOf : Json → Option MarketSnapshot
  | .obj fields =>
    match jsonLookup fields "name", jsonLookup fields "symbol",
          jsonLookup fields "current_price" with
    | some (.str n), some (.str sy), some (.num p) =>
        some (MarketSnapshot.mk n sy p)
    | _, _, _ => none
  | _ => none

/-- Reading of a whole well-formed markets response body. -/
def snapshotsOf : List Json → Option (List MarketSnapshot)
  | [] => some []
  | r :: rest =>
    match snapshotOf r, snapshotsOf rest with
    | some s, some ss => some (s :: ss)
    | _, _ => none

/-- The line format of the top-5 listing, one line per asset. -/
def fmtSnap (s : MarketSnapshot) : String :=
  s.name ++ " (" ++ strUpper s.symbol ++ "): $" ++ toString s.current_price

/-- An environment in which every upstream request fails at the transport
layer (timeout, connection failure, or bad HTTP status). -/
def envAllDown : Env :=
  { price := fun _ => .transportError, chart := fun _ => .transportError }

/-! ## Helper lemmas -/

/-- A markets entry read as a snapshot renders to its formatted line. -/
theorem renderSnapshot_eq (r : Json) (s : MarketSnapshot)
    (h : snapshotOf r = some s) : renderSnapshot r = .ok (fmtSnap s) := by
  cases r <;> simp only [snapshotOf] at h
  case obj fields =>
    split at h
    case h_1 n sy p hn hs hp =>
      cases h
      simp [renderSnapshot, pySubscript, hn, hs, hp, pyUpper, fmtSnap, pyStr]
    case h_2 => exact Option.noConfusion h
  all_goals exact Option.noConfusion h

/-- The rendering loop on a well-formed markets body produces exactly the
formatted lines, in order. -/
theorem renderSnapshots_eq (rows : List Json) (snaps : List MarketSnapshot)
    (h : snapshotsOf rows = some snaps) :
    renderSnapshots rows = .ok (snaps.map fmtSnap) := by
  induction rows generalizing snaps with
  | nil =>
    simp only [snapshotsOf] at h
    cases h
    simp [renderSnapshots]
  | cons r rest ih =>
    simp only [snapshotsOf] at h
    split at h
    case h_1 s ss hs hss =>
      cases h
      simp [renderSnapshots, renderSnapshot_eq r s hs, ih ss hss]
    case h_2 => exact Option.noConfusion h

/-- Reading a markets body preserves its length. -/
theorem snapshotsOf_length (rows : List Json) (snaps : List MarketSnapshot)
    (h : snapshotsOf rows = some snaps) : snaps.length = rows.length := by
  induction rows generalizing snaps with
  | nil => simp only [snapshotsOf] at h; cases h; rfl
  | cons r rest ih =>
    simp only [snapshotsOf] at h
    split at h
    case h_1 s ss hs hss => cases h; simp [ih ss hss]
    case h_2 => exact Option.noConfusion h

/-- ask_for_crypto stores the requested intent whatever the upstream
outcome and whatever happens while building the keyboard. -/
theorem ask_for_crypto_sets_intent (intent : String) (resp : HttpOutcome) :
    (ask_for_crypto intent resp).intentAfter = some intent := by
  simp only [ask_for_crypto]
  split <;> rfl

/-! ## Claim theorems -/

/-- C1: the claim says the Dispatcher replies with one of two fixed
failure messages on every MarketDataClient or ChartRenderer failure and
never presents a failure sentinel as if it were a price. The code
violates this: when the price request fails at the transport layer,
get_crypto_price returns the service-unavailable sentinel, which contains
none of the three lowercase substrings the handler tests for (error,
could not find, not available), so the handler sends it in the
success-format price reply. This theorem evaluates the handler at that
failing input and exhibits the leaked sentinel. -/
theorem sentinel_shown_as_price_on_transport_failure :
    (crypto_handler (some "get_price") "Bitcoin" envAllDown).replies =
      [Reply.text "🔍 Checking current Bitcoin price...",
       Reply.text ("💰 Current Bitcoin price: " ++ serviceUnavailableMsg)] := by
  rfl

/-- C3: the claim says a failing upstream markets call makes the
asset-selection step present the static fallback list of five
identifiers plus Toncoin. The code violates this: on a transport failure
get_top_5_crypto_list returns an empty list instead of raising, so the
except clause guarding the fallback never fires and the keyboard offers
only the appended Toncoin entry. This theorem evaluates ask_for_crypto at
that failing input. -/
theorem fallback_list_unreachable_on_transport_failure :
    ask_for_crypto "get_price" .transportError =
      { intentAfter := some "get_price", keyboard := [["Toncoin"]], exc := none } := by
  rfl

/-- C4 counterexample: the claim as stated fails — a well-formed markets
body whose first entry lacks the name field makes get_top_5_crypto_prices
raise a KeyError past its boundary (only RequestException is caught)
instead of returning a sentinel. -/
theorem topPrices_raise_on_missing_name_field :
    get_top_5_crypto_prices (.body (.arr [.obj []])) = .error (.keyError "name") := by
  rfl

/-- C4 amended: on every transport error and on every malformed
(undecodable) body, each of the four operations returns its sentinel
failure value rather than raising — in particular a timed-out price
request makes get_crypto_price return the fixed service-unavailable
message — and generate_price_chart additionally absorbs every exception
of its body, returning None; the other three operations may still raise
on well-formed JSON bodies of unexpected shape. -/
theorem failure_absorption_amended :
    (∀ name : String,
        get_crypto_price name .transportError = .ok serviceUnavailableMsg
        ∧ get_crypto_price name .malformedBody = .ok serviceUnavailableMsg) ∧
    (get_top_5_crypto_prices .transportError = .ok topUnavailableMsg
      ∧ get_top_5_crypto_prices .malformedBody = .ok topUnavailableMsg) ∧
    (get_top_5_crypto_list .transportError = .ok []
      ∧ get_top_5_crypto_list .malformedBody = .ok []) ∧
    (∀ id : String,
        generate_price_chart id .transportError = none
        ∧ generate_price_chart id .malformedBody = none) ∧
    (∀ (id : String) (data : Json) (e : PyExc),
        generate_price_chart_body id data = .error e →
        generate_price_chart id (.body data) = none) := by
  refine ⟨fun name => ⟨rfl, rfl⟩, ⟨rfl, rfl⟩, ⟨rfl, rfl⟩, fun id => ⟨rfl, rfl⟩, ?_⟩
  intro id data e h
  simp [generate_price_chart, h]

/-- C4 witness: the amended theorem applied to a timed-out price request
and to a chart body that raises a TypeError on a scalar JSON body. -/
theorem failure_absorption_amended_witness :
    get_crypto_price "bitcoin" .transportError = .ok serviceUnavailableMsg
    ∧ generate_price_chart "bitcoin" (.body (.num 0)) = none :=
  ⟨(failure_absorption_amended.1 "bitcoin").1,
   failure_absorption_amended.2.2.2.2 "bitcoin" (.num 0) .typeError rfl⟩

/-- C2: get_crypto_price returns the formatted price string (containing
the numeric USD value — in particular $65000 for the bitcoin scenario
body) exactly when the object response maps the identifier key to a
nested object with a usd value; when the identifier key or the nested usd
field is missing it returns the price-unavailable message; on a transport
error it returns the service-unavailable message; and the two failure
messages are distinct. -/
theorem getPrice_spec :
    (∀ (name : String) (fs gs : List (String × Json)) (v : Json),
        jsonLookup fs name = some (.obj gs) →
        jsonLookup gs "usd" = some v →
        get_crypto_price name (.body (.obj fs)) = .ok ("$" ++ pyStr v)) ∧
    (get_crypto_price "bitcoin"
        (.body (.obj [("bitcoin", .obj [("usd", .num 65000)])])) = .ok "$65000"
      ∧ strContains "$65000" "65000" = true) ∧
    (∀ (name : String) (fs : List (String × Json)),
        jsonLookup fs name = none →
        get_crypto_price name (.body (.obj fs)) = .ok priceUnavailableMsg) ∧
    (∀ (name : String) (fs gs : List (String × Json)),
        jsonLookup fs name = some (.obj gs) →
        jsonLookup gs "usd" = none →
        get_crypto_price name (.body (.obj fs)) = .ok priceUnavailableMsg) ∧
    (∀ name : String,
        get_crypto_price name .transportError = .ok serviceUnavailableMsg) ∧
    serviceUnavailableMsg ≠ priceUnavailableMsg := by
  refine ⟨?_, ⟨rfl, rfl⟩, ?_, ?_, fun name => rfl, by decide⟩
  · intro name fs gs v h1 h2
    simp [get_crypto_price, runPriceBody, pyContains, pySubscript, h1, h2]
  · intro name fs h
    simp [get_crypto_price, runPriceBody, pyContains, h]
  · intro name fs gs h1 h2
    simp [get_crypto_price, runPriceBody, pyContains, pySubscript, h1, h2]

/-- C2 witness: the success clause at a concrete ethereum body and the
missing-identifier clause at an empty object body. -/
theorem getPrice_spec_witness :
    get_crypto_price "ethereum"
      (.body (.obj [("ethereum", .obj [("usd", .num 3500)])])) = .ok "$3500"
    ∧ get_crypto_price "dogecoin" (.body (.obj [])) = .ok priceUnavailableMsg :=
  ⟨getPrice_spec.1 "ethereum" [("ethereum", .obj [("usd", .num 3500)])]
      [("usd", .num 3500)] (.num 3500) rfl rfl,
   getPrice_spec.2.2.1 "dogecoin" [] rfl⟩

/-- C5: on a successful markets response of well-formed entries (at most
5, as requested via the per_page parameter of the URL),
get_top_5_crypto_prices renders one line per entry in upstream order, in
the exact format name (SYMBOL): $price with the symbol upper-cased,
joined into a single newline-separated block; the number of lines equals
the number of entries and is at most 5. -/
theorem topSnapshots_render_spec (rows : List Json) (snaps : List MarketSnapshot)
    (h : snapshotsOf rows = some snaps)
    (hlen : rows.length ≤ marketsRequestPerPage) :
    get_top_5_crypto_prices (.body (.arr rows)) =
        .ok (String.intercalate "\n" (snaps.map fmtSnap))
      ∧ (snaps.map fmtSnap).length = rows.length
      ∧ (snaps.map fmtSnap).length ≤ 5 := by
  have hr := renderSnapshots_eq rows snaps h
  have hl := snapshotsOf_length rows snaps h
  refine ⟨?_, by simp [hl], by simp [hl]; exact hlen⟩
  simp [get_top_5_crypto_prices, runTopPricesBody, pyIter, hr]

/-- C5 witness: a two-entry markets body renders to the expected
two-line block. -/
theorem topSnapshots_render_spec_witness :
    get_top_5_crypto_prices (.body (.arr
      [.obj [("id", .str "bitcoin"), ("name", .str "Bitcoin"),
             ("symbol", .str "btc"), ("current_price", .num 65000)],
       .obj [("id", .str "ethereum"), ("name", .str "Ethereum"),
             ("symbol", .str "eth"), ("current_price", .num 3500)]])) =
      .ok "Bitcoin (BTC): $65000\nEthereum (ETH): $3500" :=
  (topSnapshots_render_spec
    [.obj [("id", .str "bitcoin"), ("name", .str "Bitcoin"),
           ("symbol", .str "btc"), ("current_price", .num 65000)],
     .obj [("id", .str "ethereum"), ("name", .str "Ethereum"),
           ("symbol", .str "eth"), ("current_price", .num 3500)]]
    [MarketSnapshot.mk "Bitcoin" "btc" 65000,
     MarketSnapshot.mk "Ethereum" "eth" 3500]
    rfl (by decide)).1

/-- C6: for every non-empty well-formed price series, the rendered chart
exists and its line colour is the upward green when the last price is at
least the first (so also on equality) and the downward red when the last
price is strictly below the first. -/
theorem chart_trend_color_spec (id : String) (rows : List Json)
    (p0 : PricePoint) (rest : List PricePoint)
    (h : parseSeries rows = some (p0 :: rest)) :
    ∃ c : RenderedChart,
      generate_price_chart id (.body (.obj [("prices", .arr rows)])) = some c
      ∧ (p0.price ≤ ((p0 :: rest).getLastD p0).price → c.lineColor = "#26a69a")
      ∧ (((p0 :: rest).getLastD p0).price < p0.price → c.lineColor = "#ef5350")
      ∧ (((p0 :: rest).getLastD p0).price = p0.price → c.lineColor = "#26a69a") := by
  refine ⟨renderChart id
      (if ((p0 :: rest).getLastD p0).price ≥ p0.price then "#26a69a" else "#ef5350")
      (p0 :: rest), ?_, ?_, ?_, ?_⟩
  · simp [generate_price_chart, generate_price_chart_body, pyContains,
      pySubscript, jsonLookup, pandasRows, h]
  · intro hge
    show (if ((p0 :: rest).getLastD p0).price ≥ p0.price
      then "#26a69a" else "#ef5350") = "#26a69a"
    exact if_pos hge
  · intro hlt
    show (if ((p0 :: rest).getLastD p0).price ≥ p0.price
      then "#26a69a" else "#ef5350") = "#ef5350"
    exact if_neg (not_le.mpr hlt)
  · intro heq
    show (if ((p0 :: rest).getLastD p0).price ≥ p0.price
      then "#26a69a" else "#ef5350") = "#26a69a"
    exact if_pos (ge_of_eq heq)

/-- C6 witness: a falling two-point series gets the downward colour. -/
theorem chart_trend_color_spec_witness :
    ∃ c : RenderedChart,
      generate_price_chart "bitcoin"
        (.body (.obj [("prices",
          .arr [.arr [.num 1, .num 10], .arr [.num 2, .num 5]])])) = some c
      ∧ c.lineColor = "#ef5350" := by
  obtain ⟨c, hc, hup, hdown, heq⟩ :=
    chart_trend_color_spec "bitcoin"
      [.arr [.num 1, .num 10], .arr [.num 2, .num 5]]
      (PricePoint.mk 1 10) [PricePoint.mk 2 5] rfl
  exact ⟨c, hc, hdown (by decide)⟩

/-- C7: for every non-empty well-formed price series the renderer yields
a chart whose PNG buffer is non-empty and positioned at its start; for an
empty series, and for a body missing the prices field, it yields the
no-chart sentinel None. -/
theorem chart_buffer_spec :
    (∀ (id : String) (rows : List Json) (p0 : PricePoint)
        (rest : List PricePoint),
        parseSeries rows = some (p0 :: rest) →
        ∃ c : RenderedChart,
          generate_price_chart id (.body (.obj [("prices", .arr rows)])) = some c
          ∧ c.buf.data ≠ [] ∧ c.buf.pos = 0) ∧
    (∀ id : String,
        generate_price_chart id (.body (.obj [("prices", .arr [])])) = none) ∧
    (∀ (id : String) (fields : List (String × Json)),
        jsonLookup fields "prices" = none →
        generate_price_chart id (.body (.obj fields)) = none) := by
  refine ⟨?_, fun id => rfl, ?_⟩
  · intro id rows p0 rest h
    refine ⟨renderChart id
        (if ((p0 :: rest).getLastD p0).price ≥ p0.price then "#26a69a" else "#ef5350")
        (p0 :: rest), ?_, ?_, rfl⟩
    · simp [generate_price_chart, generate_price_chart_body, pyContains,
        pySubscript, jsonLookup, pandasRows, h]
    · simp [renderChart, pngSignature]
  · intro id fields h
    simp [generate_price_chart, generate_price_chart_body, pyContains, h]

/-- C7 witness: a one-point series yields a chart with a non-empty
buffer at position zero. -/
theorem chart_buffer_spec_witness :
    ∃ c : RenderedChart,
      generate_price_chart "ethereum"
        (.body (.obj [("prices", .arr [.arr [.num 7, .num 42]])])) = some c
      ∧ c.buf.data ≠ [] ∧ c.buf.pos = 0 :=
  chart_buffer_spec.1 "ethereum" [.arr [.num 7, .num 42]]
    (PricePoint.mk 7 42) [] rfl

/-- C8: the label-to-identifier mapping applied before any
MarketDataClient call sends the label Toncoin, case-insensitively, to
the-open-network, and every other label to its own lowercase form; the
handler indeed issues its single upstream call at the mapped identifier
for both intents. -/
theorem label_mapping_spec :
    (∀ raw : String, strLower raw = "toncoin" →
        mapLabel raw = "the-open-network") ∧
    (∀ raw : String, strLower raw ≠ "toncoin" →
        mapLabel raw = strLower raw) ∧
    (∀ (raw : String) (env : Env),
        (crypto_handler (some "get_price") raw env).calls =
          [.simplePrice (mapLabel raw)]) ∧
    (∀ (raw : String) (env : Env),
        (crypto_handler (some "get_chart") raw env).calls =
          [.marketChart (mapLabel raw)]) := by
  refine ⟨?_, ?_, ?_, ?_⟩
  · intro raw h
    simp [mapLabel, h]
  · intro raw h
    simp [mapLabel, h]
  · intro raw env
    cases hg : get_crypto_price (mapLabel raw) (env.price (mapLabel raw)) with
    | error e => simp [crypto_handler, hg]
    | ok s => simp [crypto_handler, hg]
  · intro raw env
    cases hg : generate_price_chart (mapLabel raw) (env.chart (mapLabel raw)) with
    | none => simp [crypto_handler, hg]
    | some c => simp [crypto_handler, hg]

/-- C8 witness: the Toncoin label in mixed case maps to
the-open-network, and the Bitcoin label maps to its lowercase form. -/
theorem label_mapping_spec_witness :
    mapLabel "TonCoin" = "the-open-network" ∧ mapLabel "Bitcoin" = "bitcoin" :=
  ⟨label_mapping_spec.1 "TonCoin" rfl,
   label_mapping_spec.2.1 "Bitcoin" (by decide)⟩

/-- C9: the intent slot is set to get_price by the price command and to
get_chart by the chart command; once an asset-selection message is
processed to completion with either intent pending, the slot is cleared
(whether the lookup or render succeeded or returned its failure
sentinel), and a further plain-text message finds no intent and triggers
no upstream call. -/
theorem intent_lifecycle_spec :
    (∀ marketsResp : HttpOutcome,
        (price_command marketsResp).intentAfter = some "get_price") ∧
    (∀ marketsResp : HttpOutcome,
        (chart_command marketsResp).intentAfter = some "get_chart") ∧
    (∀ (i text : String) (env : Env),
        (i = "get_price" ∨ i = "get_chart") →
        (crypto_handler (some i) text env).exc = none →
        (crypto_handler (some i) text env).intentAfter = none) ∧
    (∀ (text : String) (env : Env),
        (crypto_handler none text env).calls = []) := by
  refine ⟨fun r => ask_for_crypto_sets_intent "get_price" r,
    fun r => ask_for_crypto_sets_intent "get_chart" r, ?_, fun text env => rfl⟩
  intro i text env hi hexc
  rcases hi with rfl | rfl
  · cases hg : get_crypto_price (mapLabel text) (env.price (mapLabel text)) with
    | error e => simp [crypto_handler, hg] at hexc
    | ok s => simp [crypto_handler, hg]
  · cases hg : generate_price_chart (mapLabel text) (env.chart (mapLabel text)) with
    | none => simp [crypto_handler, hg]
    | some c => simp [crypto_handler, hg]

/-- C9 witness: with the price endpoint down, one selection under a
pending get_price intent completes and clears the slot. -/
theorem intent_lifecycle_spec_witness :
    (crypto_handler (some "get_price") "Toncoin" envAllDown).intentAfter = none :=
  intent_lifecycle_spec.2.2.1 "get_price" "Toncoin" envAllDown (Or.inl rfl) rfl

/-- C10: a plain-text message from a user with no pending intent
produces no upstream call, no reply, no intent change and no exception. -/
theorem no_intent_no_effect (text : String) (env : Env) :
    crypto_handler none text env =
      { calls := [], replies := [], intentAfter := none, exc := none } := by
  rfl

end CryptoBot
